import Mathlib

/-!
Verification of `fileshiftlib` (src/fileshiftlib/fileshift.py), a thin session-lifecycle
wrapper over an external SSH/SFTP capability (paramiko).

Shallow embedding. The external capability (paramiko transport / SFTP client and the
logging sink) is modelled by a record `Env` of deterministic outcome functions: each
external call either succeeds with a value or raises an exception, modelled as
`Except String`. Handles (paramiko `Transport` and `SFTPClient` objects) are opaque
identifiers (`Nat`). Every method of the Python class `SFTP` is translated into a
function that, besides its Python return value (`Except` for a possible raised
exception), yields the updated object state and the ordered list of external calls and
log messages it performed (`List Event`). Python field names lose their leading
underscore (`_configuration` becomes `configuration`, `_transport` becomes `transport`);
Python's keyword defaults (`port=22`, `path="."`) are passed explicitly by callers here.
-/

namespace Fileshift

/-- Log levels used by the module (`logger.info`, `logger.warning`). -/
inductive Level where
  | info
  | warning
  deriving DecidableEq, Repr

/-- One observable action of an `SFTP` method: a log message, or a call into the
delegated paramiko capability, recorded with the arguments the source passes. -/
inductive Event where
  | log (lvl : Level) (msg : String)
  | transportOpen (host : String) (port : Nat)
  | transportConnect (t : Nat) (username : String) (password : Option String)
  | sftpFromTransport (t : Nat)
  | transportClose (t : Nat)
  | clientClose (c : Nat)
  | isActive (t : Nat)
  | listdir (c : Nat) (path : String)
  | chdir (c : Nat) (path : String)
  | remove (c : Nat) (filename : String)
  | get (c : Nat) (remotePath : String) (localPath : String)
  | put (c : Nat) (localPath : String) (remotePath : String)
  deriving DecidableEq, Repr

/-- The `SFTP.Configuration` dataclass: host, port, username, password (None allowed). -/
structure Configuration where
  host : String
  port : Nat
  username : String
  password : Option String
  deriving DecidableEq, Repr

/-- The mutable state of an `SFTP` object: `_configuration`, `_transport`,
`sftp_client` (the logger carries no state we track). -/
structure SFTP where
  configuration : Configuration
  transport : Nat
  sftp_client : Nat
  deriving DecidableEq, Repr

/-- Deterministic model of the delegated paramiko capability: the outcome of each
external call the source makes. `Except.error e` models the call raising an
exception whose string form is `e`. -/
structure Env where
  transportOpen : String → Nat → Except String Nat
  transportConnect : Nat → String → Option String → Except String Unit
  sftpFromTransport : Nat → Except String Nat
  transportClose : Nat → Except String Unit
  clientClose : Nat → Except String Unit
  isActive : Nat → Bool
  listdir : Nat → String → Except String (List String)
  chdir : Nat → String → Except String Unit
  remove : Nat → String → Except String Unit
  sftpGet : Nat → String → String → Except String Unit
  sftpPut : Nat → String → String → Except String Unit

/-- Body of `SFTP.auth`, as a function of the configuration it reads (`auth` touches
no other state): logs at info level, then `paramiko.Transport((host, port))`,
`transport.connect(username, password)`, `paramiko.SFTPClient.from_transport(transport)`,
returning the `(transport, sftp_client)` pair. An exception at any step propagates. -/
def SFTP.authRun (env : Env) (cfg : Configuration) :
    Except String (Nat × Nat) × List Event :=
  let e0 : List Event :=
    [Event.log Level.info "Establishing a new SFTP session with the remote server.",
     Event.transportOpen cfg.host cfg.port]
  match env.transportOpen cfg.host cfg.port with
  | Except.error err => (Except.error err, e0)
  | Except.ok transport =>
    let e1 := e0 ++ [Event.transportConnect transport cfg.username cfg.password]
    match env.transportConnect transport cfg.username cfg.password with
    | Except.error err => (Except.error err, e1)
    | Except.ok _ =>
      let e2 := e1 ++ [Event.sftpFromTransport transport]
      match env.sftpFromTransport transport with
      | Except.error err => (Except.error err, e2)
      | Except.ok sftp_client => (Except.ok (transport, sftp_client), e2)

/-- Method `SFTP.auth` as called on an object: reads `self._configuration` only. -/
def SFTP.auth (env : Env) (s : SFTP) : Except String (Nat × Nat) × List Event :=
  SFTP.authRun env s.configuration

/-- Constructor `SFTP.__init__`: builds the `Configuration` from the arguments (the Python default
for `port` is 22), then `self._transport, self.sftp_client = self.auth()`. On an
exception from `auth` the constructor re-raises and no object is returned. -/
def SFTP.init (env : Env) (host username password : String) (port : Nat) :
    Except String SFTP × List Event :=
  let configuration := Configuration.mk host port username (some password)
  let a := SFTP.authRun env configuration
  match a.1 with
  | Except.error e => (Except.error e, a.2)
  | Except.ok tc => (Except.ok (SFTP.mk configuration tc.1 tc.2), a.2)

/-- The cleanup phase of `SFTP.reconnect`: the info log, then
`try: self._transport.close(); self.sftp_client.close() except Exception as e:`
`self._logger.warning(...)`. If `transport.close()` raises, `sftp_client.close()` is
never reached; either exception is swallowed into a single warning log entry. -/
def SFTP.reconnectCleanup (env : Env) (s : SFTP) : List Event :=
  [Event.log Level.info
     "Establishing a secure connection and authenticating with the SFTP server.",
   Event.transportClose s.transport] ++
  match env.transportClose s.transport with
  | Except.error e =>
    [Event.log Level.warning ("Error closing existing connection: " ++ e)]
  | Except.ok _ =>
    [Event.clientClose s.sftp_client] ++
    match env.clientClose s.sftp_client with
    | Except.error e =>
      [Event.log Level.warning ("Error closing existing connection: " ++ e)]
    | Except.ok _ => []

/-- Method `SFTP.reconnect`: cleanup phase, then
`self._transport, self.sftp_client = self.auth()`. An exception from `auth`
propagates, and since the tuple assignment never happens the fields keep their old
values; on success both fields are replaced together by the fresh pair. -/
def SFTP.reconnect (env : Env) (s : SFTP) :
    Except String Unit × SFTP × List Event :=
  let cleanup := SFTP.reconnectCleanup env s
  let a := SFTP.authRun env s.configuration
  match a.1 with
  | Except.error e => (Except.error e, s, cleanup ++ a.2)
  | Except.ok tc =>
    (Except.ok (), SFTP.mk s.configuration tc.1 tc.2, cleanup ++ a.2)

/-- Body of `SFTP.__del__`: info log, then `self._transport.close()`,
then `self.sftp_client.close()`, with no try/except: an exception from the first
close skips the second and escapes the body. -/
def SFTP.delBody (env : Env) (s : SFTP) : Except String Unit × List Event :=
  let e0 : List Event :=
    [Event.log Level.info "Closing the SFTP session and releasing resources.",
     Event.transportClose s.transport]
  match env.transportClose s.transport with
  | Except.error e => (Except.error e, e0)
  | Except.ok _ =>
    let e1 := e0 ++ [Event.clientClose s.sftp_client]
    match env.clientClose s.sftp_client with
    | Except.error e => (Except.error e, e1)
    | Except.ok _ => (Except.ok (), e1)

/-- Finalizer `SFTP.__del__` as observed by whatever triggered finalization: CPython ignores any
exception escaping `__del__` (it is reported to stderr, never raised past the caller),
so the caller-visible outcome is always success; the performed actions are those of
the body. -/
def SFTP.delRun (env : Env) (s : SFTP) : Except String Unit × List Event :=
  (Except.ok (), (SFTP.delBody env s).2)

/-- Method `SFTP.is_connected`: info log, then returns `self._transport.is_active()`.
The object state is returned unchanged (the method assigns no field). -/
def SFTP.is_connected (env : Env) (s : SFTP) : Bool × SFTP × List Event :=
  (env.isActive s.transport, s,
   [Event.log Level.info "Checking if the SFTP connection is currently active.",
    Event.isActive s.transport])

/-- Method `SFTP.list_dir`: two info logs (operation name, then the path), then delegates
to `self.sftp_client.listdir(path)`, whose value or exception is the result. -/
def SFTP.list_dir (env : Env) (s : SFTP) (path : String) :
    Except String (List String) × SFTP × List Event :=
  (env.listdir s.sftp_client path, s,
   [Event.log Level.info
      "Listing the names of the contents in the specified folder on the SFTP server.",
    Event.log Level.info path,
    Event.listdir s.sftp_client path])

/-- Method `SFTP.change_dir`: two info logs, then `self.sftp_client.chdir(path)`. -/
def SFTP.change_dir (env : Env) (s : SFTP) (path : String) :
    Except String Unit × SFTP × List Event :=
  (env.chdir s.sftp_client path, s,
   [Event.log Level.info "Changing the current working directory on the SFTP server.",
    Event.log Level.info path,
    Event.chdir s.sftp_client path])

/-- Method `SFTP.delete_file`: two info logs, then `self.sftp_client.remove(filename)`. -/
def SFTP.delete_file (env : Env) (s : SFTP) (filename : String) :
    Except String Unit × SFTP × List Event :=
  (env.remove s.sftp_client filename, s,
   [Event.log Level.info "Deleting a file from the SFTP server.",
    Event.log Level.info filename,
    Event.remove s.sftp_client filename])

/-- Method `SFTP.download_file`: three info logs (name, remote path, local path), then
`self.sftp_client.get(remote_path, local_path)`. -/
def SFTP.download_file (env : Env) (s : SFTP) (remote_path local_path : String) :
    Except String Unit × SFTP × List Event :=
  (env.sftpGet s.sftp_client remote_path local_path, s,
   [Event.log Level.info
      "Downloading a file from the SFTP server to the local machine.",
    Event.log Level.info remote_path,
    Event.log Level.info local_path,
    Event.get s.sftp_client remote_path local_path])

/-- Method `SFTP.upload_file`: three info logs (name, local path, remote path), then
`self.sftp_client.put(local_path, remote_path)`. -/
def SFTP.upload_file (env : Env) (s : SFTP) (local_path remote_path : String) :
    Except String Unit × SFTP × List Event :=
  (env.sftpPut s.sftp_client local_path remote_path, s,
   [Event.log Level.info
      "Uploading a file from the local machine to the SFTP server.",
    Event.log Level.info local_path,
    Event.log Level.info remote_path,
    Event.put s.sftp_client local_path remote_path])

/-- The two handles of a session are the result of one successful authentication
against its configuration: the transport was opened to (host, port), the credentials
were accepted on it, and the client was derived from that same transport. -/
def authPair (env : Env) (cfg : Configuration) (t c : Nat) : Prop :=
  env.transportOpen cfg.host cfg.port = Except.ok t ∧
  env.transportConnect t cfg.username cfg.password = Except.ok () ∧
  env.sftpFromTransport t = Except.ok c

/-- Concrete all-succeeding environment, for evaluating the development on inputs. -/
def envOk : Env :=
  Env.mk
    (fun _ _ => Except.ok 1)
    (fun _ _ _ => Except.ok ())
    (fun _ => Except.ok 2)
    (fun _ => Except.ok ())
    (fun _ => Except.ok ())
    (fun _ => true)
    (fun _ _ => Except.ok ["x.txt", "y.txt"])
    (fun _ _ => Except.ok ())
    (fun _ _ => Except.ok ())
    (fun _ _ _ => Except.ok ())
    (fun _ _ _ => Except.ok ())

/-- Environment in which closing a transport raises. -/
def envCloseFail : Env :=
  { envOk with transportClose := fun _ => Except.error "closefail" }

/-- Environment in which closing the client raises (transport close succeeds). -/
def envClientCloseFail : Env :=
  { envOk with clientClose := fun _ => Except.error "clientclosefail" }

/-- Environment in which opening a transport (the first step of `auth`) raises. -/
def envAuthFail : Env :=
  { envOk with transportOpen := fun _ _ => Except.error "authboom" }

/-- Environment in which both the cleanup close and re-authentication raise. -/
def envCloseAndAuthFail : Env :=
  { envAuthFail with transportClose := fun _ => Except.error "closefail" }

/-- A concrete open session to evaluate the operations on. -/
def s0 : SFTP := SFTP.mk (Configuration.mk "h" 22 "u" (some "p")) 7 8

/-- The session produced by constructing against `envOk` with host "h", user "u",
password "p", port 22. -/
def sInit0 : SFTP := SFTP.mk (Configuration.mk "h" 22 "u" (some "p")) 1 2

/-- Recognizes the `paramiko.Transport((host, port))` call in a trace. -/
def Event.isOpenEvent : Event → Bool
  | Event.transportOpen _ _ => true
  | _ => false

/-- Recognizes the `transport.connect(...)` call in a trace. -/
def Event.isConnectEvent : Event → Bool
  | Event.transportConnect _ _ _ => true
  | _ => false

/-- Recognizes the `SFTPClient.from_transport(...)` call in a trace. -/
def Event.isDeriveEvent : Event → Bool
  | Event.sftpFromTransport _ => true
  | _ => false

theorem reconnect_fst (env : Env) (s : SFTP) :
    (SFTP.reconnect env s).1 =
      (SFTP.authRun env s.configuration).1.map fun _ => () := by
  unfold SFTP.reconnect
  cases h : (SFTP.authRun env s.configuration).1 <;> simp [h, Except.map]

theorem reconnect_trace (env : Env) (s : SFTP) :
    (SFTP.reconnect env s).2.2 =
      SFTP.reconnectCleanup env s ++ (SFTP.authRun env s.configuration).2 := by
  unfold SFTP.reconnect
  cases h : (SFTP.authRun env s.configuration).1 <;> simp [h]

theorem authRun_no_clientClose (env : Env) (cfg : Configuration) (c : Nat) :
    Event.clientClose c ∉ (SFTP.authRun env cfg).2 := by
  unfold SFTP.authRun
  cases h1 : env.transportOpen cfg.host cfg.port with
  | error e => simp [h1]
  | ok t =>
    cases h2 : env.transportConnect t cfg.username cfg.password with
    | error e => simp [h1, h2]
    | ok u =>
      cases h3 : env.sftpFromTransport t with
      | error e => simp [h1, h2, h3]
      | ok c2 => simp [h1, h2, h3]

theorem cleanup_of_transportClose_error (env : Env) (s : SFTP) (e : String)
    (h : env.transportClose s.transport = Except.error e) :
    SFTP.reconnectCleanup env s =
      [Event.log Level.info
         "Establishing a secure connection and authenticating with the SFTP server.",
       Event.transportClose s.transport,
       Event.log Level.warning ("Error closing existing connection: " ++ e)] := by
  unfold SFTP.reconnectCleanup
  simp [h]

theorem authRun_ok_pair (env : Env) (cfg : Configuration) (tc : Nat × Nat)
    (h : (SFTP.authRun env cfg).1 = Except.ok tc) :
    authPair env cfg tc.1 tc.2 := by
  unfold SFTP.authRun at h
  cases h1 : env.transportOpen cfg.host cfg.port with
  | error e => simp [h1] at h
  | ok t =>
    cases h2 : env.transportConnect t cfg.username cfg.password with
    | error e => simp [h1, h2] at h
    | ok u =>
      cases h3 : env.sftpFromTransport t with
      | error e => simp [h1, h2, h3] at h
      | ok c =>
        simp [h1, h2, h3] at h
        cases u
        exact h ▸ ⟨h1, h2, h3⟩

/-- C1: `reconnect` propagates a failure to its caller iff the re-authentication
step fails: its outcome is exactly the outcome of the `auth` call (an `auth`
exception is re-raised unchanged, and success yields success), while an exception
from either close call during cleanup only produces a warning log entry and is
never part of the outcome. -/
theorem reconnect_failure_iff_reauth_failure (env : Env) (s : SFTP) :
    (SFTP.reconnect env s).1 =
      ((SFTP.authRun env s.configuration).1.map fun _ => ()) ∧
    (∀ e, env.transportClose s.transport = Except.error e →
      Event.log Level.warning ("Error closing existing connection: " ++ e)
        ∈ (SFTP.reconnect env s).2.2) ∧
    (∀ e, env.transportClose s.transport = Except.ok () →
      env.clientClose s.sftp_client = Except.error e →
      Event.log Level.warning ("Error closing existing connection: " ++ e)
        ∈ (SFTP.reconnect env s).2.2) := by
  refine ⟨reconnect_fst env s, ?_, ?_⟩
  · intro e he
    rw [reconnect_trace, cleanup_of_transportClose_error env s e he]
    simp
  · intro e ht hc
    rw [reconnect_trace]
    unfold SFTP.reconnectCleanup
    simp [ht, hc]

theorem reconnect_failure_iff_reauth_failure_witness :
    (SFTP.reconnect envCloseFail s0).1 = Except.ok () ∧
    Event.log Level.warning ("Error closing existing connection: " ++ "closefail")
      ∈ (SFTP.reconnect envCloseFail s0).2.2 :=
  ⟨(reconnect_failure_iff_reauth_failure envCloseFail s0).1.trans rfl,
   (reconnect_failure_iff_reauth_failure envCloseFail s0).2.1 "closefail" rfl⟩

/-- C2: if authentication fails during construction for any reason, construction
fails by re-raising the `auth` exception unchanged, and no (partially-initialized)
object is returned; on success the fully-initialized object is returned. -/
theorem construct_propagates_auth_failure (env : Env)
    (host username password : String) (port : Nat) :
    (SFTP.init env host username password port).1 =
      (SFTP.authRun env (Configuration.mk host port username (some password))).1.map
        fun tc =>
          SFTP.mk (Configuration.mk host port username (some password)) tc.1 tc.2 := by
  unfold SFTP.init
  cases h :
      (SFTP.authRun env (Configuration.mk host port username (some password))).1 <;>
    simp [h, Except.map]

/-- C3: final teardown (`__del__`) never lets a close failure reach whatever
triggered finalization (CPython ignores exceptions escaping `__del__`); it always
attempts to close the transport, and when that close succeeds it also closes the
client, in that order. -/
theorem del_closes_both_best_effort (env : Env) (s : SFTP) :
    (SFTP.delRun env s).1 = Except.ok () ∧
    Event.transportClose s.transport ∈ (SFTP.delRun env s).2 ∧
    (env.transportClose s.transport = Except.ok () →
      (SFTP.delRun env s).2 =
        [Event.log Level.info "Closing the SFTP session and releasing resources.",
         Event.transportClose s.transport,
         Event.clientClose s.sftp_client]) := by
  refine ⟨rfl, ?_, ?_⟩
  · unfold SFTP.delRun SFTP.delBody
    cases h1 : env.transportClose s.transport with
    | error e => simp [h1]
    | ok u =>
      cases h2 : env.clientClose s.sftp_client with
      | error e => simp [h1, h2]
      | ok v => simp [h1, h2]
  · intro h1
    unfold SFTP.delRun SFTP.delBody
    cases h2 : env.clientClose s.sftp_client with
    | error e => simp [h1, h2]
    | ok v => simp [h1, h2]

theorem del_closes_both_best_effort_witness :
    (SFTP.delRun envClientCloseFail s0).1 = Except.ok () ∧
    (SFTP.delRun envClientCloseFail s0).2 =
      [Event.log Level.info "Closing the SFTP session and releasing resources.",
       Event.transportClose s0.transport,
       Event.clientClose s0.sftp_client] :=
  ⟨(del_closes_both_best_effort envClientCloseFail s0).1,
   (del_closes_both_best_effort envClientCloseFail s0).2.2 rfl⟩

/-- C4 (counterexample): the handles are not always destroyed together. In the
environment where closing the transport raises, `reconnect` attempts the transport
close but never touches the client handle, yet still completes successfully — the
two handles are released independently on this path. -/
theorem handles_not_always_destroyed_together :
    Event.transportClose s0.transport ∈ (SFTP.reconnect envCloseFail s0).2.2 ∧
    Event.clientClose s0.sftp_client ∉ (SFTP.reconnect envCloseFail s0).2.2 ∧
    (SFTP.reconnect envCloseFail s0).1 = Except.ok () := by
  refine ⟨?_, ?_, rfl⟩ <;> decide

/-- C4 (amended): whenever a session is in the open state — after construction, and
after any successful reconnect — its transport and client handles come from one
successful authentication run against its configuration (transport opened to
(host, port), credentials accepted on it, client derived from that same transport),
and they are assigned together; `reconnect` leaves the session open with such a
freshly paired couple whenever `auth` succeeds, regardless of whether closing the
prior handles succeeded or failed. (The original claim's "destroyed together, never
independently" is dropped: a transport-close failure during cleanup skips the
client close.) -/
theorem session_handles_paired (env : Env) (host username password : String)
    (port : Nat) (s : SFTP) :
    (∀ s', (SFTP.init env host username password port).1 = Except.ok s' →
      authPair env s'.configuration s'.transport s'.sftp_client) ∧
    (∀ tc, (SFTP.authRun env s.configuration).1 = Except.ok tc →
      (SFTP.reconnect env s).1 = Except.ok () ∧
      (SFTP.reconnect env s).2.1 = SFTP.mk s.configuration tc.1 tc.2 ∧
      authPair env s.configuration tc.1 tc.2) := by
  constructor
  · intro s' hs'
    cases h :
        (SFTP.authRun env (Configuration.mk host port username (some password))).1 with
    | error e => simp [SFTP.init, h] at hs'
    | ok tc =>
      simp [SFTP.init, h] at hs'
      subst hs'
      exact authRun_ok_pair env (Configuration.mk host port username (some password))
        tc h
  · intro tc h
    refine ⟨?_, ?_, authRun_ok_pair env s.configuration tc h⟩
    · rw [reconnect_fst, h]; rfl
    · simp [SFTP.reconnect, h]

theorem session_handles_paired_witness :
    (SFTP.reconnect envCloseFail s0).1 = Except.ok () ∧
    (SFTP.reconnect envCloseFail s0).2.1 = SFTP.mk s0.configuration 1 2 ∧
    authPair envCloseFail s0.configuration 1 2 :=
  (session_handles_paired envCloseFail "h" "u" "p" 22 s0).2 (1, 2) rfl

/-- C5: `auth` performs exactly, in order: the info log, the transport open to
(host, port), the credential authentication with (username, password) on that
transport, and the client derivation from that same transport, returning the pair;
it never retries any step (each capability call occurs at most once in its trace,
the open exactly once, in every environment); and it is the single routine invoked
both by the constructor and by `reconnect` (their auth portions are literally its
outcome and trace). -/
theorem auth_steps_in_order :
    (∀ env cfg t c, env.transportOpen cfg.host cfg.port = Except.ok t →
      env.transportConnect t cfg.username cfg.password = Except.ok () →
      env.sftpFromTransport t = Except.ok c →
      SFTP.authRun env cfg =
        (Except.ok (t, c),
         [Event.log Level.info
            "Establishing a new SFTP session with the remote server.",
          Event.transportOpen cfg.host cfg.port,
          Event.transportConnect t cfg.username cfg.password,
          Event.sftpFromTransport t])) ∧
    (∀ env cfg, ((SFTP.authRun env cfg).2.countP Event.isOpenEvent) = 1 ∧
      ((SFTP.authRun env cfg).2.countP Event.isConnectEvent) ≤ 1 ∧
      ((SFTP.authRun env cfg).2.countP Event.isDeriveEvent) ≤ 1) ∧
    (∀ env host username password port,
      (SFTP.init env host username password port).2 =
        (SFTP.authRun env (Configuration.mk host port username (some password))).2) ∧
    (∀ env s,
      (SFTP.reconnect env s).2.2 =
        SFTP.reconnectCleanup env s ++ (SFTP.auth env s).2 ∧
      (SFTP.reconnect env s).1 = ((SFTP.auth env s).1.map fun _ => ())) := by
  refine ⟨?_, ?_, ?_, ?_⟩
  · intro env cfg t c h1 h2 h3
    unfold SFTP.authRun
    simp [h1, h2, h3]
  · intro env cfg
    unfold SFTP.authRun
    cases h1 : env.transportOpen cfg.host cfg.port with
    | error e =>
      simp [h1, List.countP_cons, Event.isOpenEvent, Event.isConnectEvent,
        Event.isDeriveEvent]
    | ok t =>
      cases h2 : env.transportConnect t cfg.username cfg.password with
      | error e =>
        simp [h1, h2, List.countP_cons, Event.isOpenEvent, Event.isConnectEvent,
          Event.isDeriveEvent]
      | ok u =>
        cases h3 : env.sftpFromTransport t with
        | error e =>
          simp [h1, h2, h3, List.countP_cons, Event.isOpenEvent,
            Event.isConnectEvent, Event.isDeriveEvent]
        | ok c2 =>
          simp [h1, h2, h3, List.countP_cons, Event.isOpenEvent,
            Event.isConnectEvent, Event.isDeriveEvent]
  · intro env host username password port
    unfold SFTP.init
    cases h :
        (SFTP.authRun env (Configuration.mk host port username (some password))).1 <;>
      simp [h]
  · intro env s
    exact ⟨reconnect_trace env s, reconnect_fst env s⟩

theorem auth_steps_in_order_witness :
    SFTP.authRun envOk (Configuration.mk "h" 22 "u" (some "p")) =
      (Except.ok (1, 2),
       [Event.log Level.info
          "Establishing a new SFTP session with the remote server.",
        Event.transportOpen "h" 22,
        Event.transportConnect 1 "u" (some "p"),
        Event.sftpFromTransport 1]) :=
  auth_steps_in_order.1 envOk (Configuration.mk "h" 22 "u" (some "p")) 1 2 rfl rfl rfl

/-- C6: `is_connected` returns exactly what the transport reports via
`is_active`, its trace consists of the info log followed by that single transport
query (it never touches the client), and the object state is unchanged. -/
theorem is_connected_pure_transport_query (env : Env) (s : SFTP) :
    (SFTP.is_connected env s).1 = env.isActive s.transport ∧
    (SFTP.is_connected env s).2.1 = s ∧
    (SFTP.is_connected env s).2.2 =
      [Event.log Level.info "Checking if the SFTP connection is currently active.",
       Event.isActive s.transport] :=
  ⟨rfl, rfl, rfl⟩

/-- C7: the configuration is built exactly once, at construction, from the
constructor arguments (with the password wrapped as in the Python call), and no
operation ever changes it afterwards: `reconnect` replaces only the handle fields,
and every other state-returning operation returns the configuration it received.
(`auth` and `__del__` assign no field at all in the source, so they cannot mutate
it.) -/
theorem configuration_immutable (env : Env) (host username password : String)
    (port : Nat) (s : SFTP) :
    (∀ s', (SFTP.init env host username password port).1 = Except.ok s' →
      s'.configuration = Configuration.mk host port username (some password)) ∧
    (SFTP.reconnect env s).2.1.configuration = s.configuration ∧
    (SFTP.is_connected env s).2.1.configuration = s.configuration ∧
    (∀ p, (SFTP.list_dir env s p).2.1.configuration = s.configuration) ∧
    (∀ p, (SFTP.change_dir env s p).2.1.configuration = s.configuration) ∧
    (∀ f, (SFTP.delete_file env s f).2.1.configuration = s.configuration) ∧
    (∀ r l, (SFTP.download_file env s r l).2.1.configuration = s.configuration) ∧
    (∀ l r, (SFTP.upload_file env s l r).2.1.configuration = s.configuration) := by
  refine ⟨?_, ?_, rfl, fun p => rfl, fun p => rfl, fun f => rfl,
    fun r l => rfl, fun l r => rfl⟩
  · intro s' hs'
    cases h :
        (SFTP.authRun env (Configuration.mk host port username (some password))).1 with
    | error e => simp [SFTP.init, h] at hs'
    | ok tc => simp [SFTP.init, h] at hs'; subst hs'; rfl
  · cases h : (SFTP.authRun env s.configuration).1 with
    | error e => simp [SFTP.reconnect, h]
    | ok tc => simp [SFTP.reconnect, h]

theorem configuration_immutable_witness :
    sInit0.configuration = Configuration.mk "h" 22 "u" (some "p") ∧
    (SFTP.reconnect envOk s0).2.1.configuration = s0.configuration :=
  ⟨(configuration_immutable envOk "h" "u" "p" 22 s0).1 sInit0 rfl,
   (configuration_immutable envOk "h" "u" "p" 22 s0).2.1⟩

/-- C8: each file/directory operation logs its name and then each path argument at
info level, then performs the delegated client call; its result (value or raised
exception) is exactly the delegated call's outcome, and the state is unchanged. -/
theorem fileops_log_then_delegate (env : Env) (s : SFTP)
    (path filename remote_path local_path : String) :
    (SFTP.list_dir env s path =
      (env.listdir s.sftp_client path, s,
       [Event.log Level.info
          "Listing the names of the contents in the specified folder on the SFTP server.",
        Event.log Level.info path,
        Event.listdir s.sftp_client path])) ∧
    (SFTP.change_dir env s path =
      (env.chdir s.sftp_client path, s,
       [Event.log Level.info
          "Changing the current working directory on the SFTP server.",
        Event.log Level.info path,
        Event.chdir s.sftp_client path])) ∧
    (SFTP.delete_file env s filename =
      (env.remove s.sftp_client filename, s,
       [Event.log Level.info "Deleting a file from the SFTP server.",
        Event.log Level.info filename,
        Event.remove s.sftp_client filename])) ∧
    (SFTP.download_file env s remote_path local_path =
      (env.sftpGet s.sftp_client remote_path local_path, s,
       [Event.log Level.info
          "Downloading a file from the SFTP server to the local machine.",
        Event.log Level.info remote_path,
        Event.log Level.info local_path,
        Event.get s.sftp_client remote_path local_path])) ∧
    (SFTP.upload_file env s local_path remote_path =
      (env.sftpPut s.sftp_client local_path remote_path, s,
       [Event.log Level.info
          "Uploading a file from the local machine to the SFTP server.",
        Event.log Level.info local_path,
        Event.log Level.info remote_path,
        Event.put s.sftp_client local_path remote_path])) :=
  ⟨rfl, rfl, rfl, rfl, rfl⟩

/-- C9: if the `auth` call inside `reconnect` raises, the tuple assignment never
happens, so the session's fields — configuration and both handles — are left
exactly as they were, and the `auth` exception is what the caller sees. -/
theorem reconnect_state_unchanged_on_reauth_failure (env : Env) (s : SFTP)
    (e : String) (h : (SFTP.authRun env s.configuration).1 = Except.error e) :
    (SFTP.reconnect env s).2.1 = s ∧
    (SFTP.reconnect env s).1 = Except.error e := by
  constructor <;> simp [SFTP.reconnect, h]

theorem reconnect_state_unchanged_on_reauth_failure_witness :
    (SFTP.reconnect envCloseAndAuthFail s0).2.1 = s0 ∧
    (SFTP.reconnect envCloseAndAuthFail s0).1 = Except.error "authboom" :=
  reconnect_state_unchanged_on_reauth_failure envCloseAndAuthFail s0 "authboom" rfl

/-- C10: during `reconnect` the transport close is always attempted first (it is the
second trace entry, before everything else, in every environment); the client close
happens only if the transport close succeeded — when the transport close raises, the
client close is skipped for that reconnect, the warning is logged, and reconnection
proceeds with its outcome determined solely by the `auth` call. -/
theorem reconnect_transport_closed_first (env : Env) (s : SFTP) :
    (∃ rest, (SFTP.reconnect env s).2.2 =
       Event.log Level.info
           "Establishing a secure connection and authenticating with the SFTP server."
         :: Event.transportClose s.transport :: rest) ∧
    (Event.clientClose s.sftp_client ∈ (SFTP.reconnect env s).2.2 →
       env.transportClose s.transport = Except.ok ()) ∧
    (∀ e, env.transportClose s.transport = Except.error e →
       Event.clientClose s.sftp_client ∉ (SFTP.reconnect env s).2.2 ∧
       Event.log Level.warning ("Error closing existing connection: " ++ e)
         ∈ (SFTP.reconnect env s).2.2 ∧
       (SFTP.reconnect env s).1 =
         ((SFTP.authRun env s.configuration).1.map fun _ => ())) := by
  refine ⟨?_, ?_, ?_⟩
  · rw [reconnect_trace]
    unfold SFTP.reconnectCleanup
    cases h1 : env.transportClose s.transport with
    | error e =>
      exact ⟨Event.log Level.warning ("Error closing existing connection: " ++ e) ::
        (SFTP.authRun env s.configuration).2, by simp [h1]⟩
    | ok u =>
      cases h2 : env.clientClose s.sftp_client with
      | error e2 =>
        exact ⟨Event.clientClose s.sftp_client ::
          Event.log Level.warning ("Error closing existing connection: " ++ e2) ::
          (SFTP.authRun env s.configuration).2, by simp [h1, h2]⟩
      | ok v =>
        exact ⟨Event.clientClose s.sftp_client ::
          (SFTP.authRun env s.configuration).2, by simp [h1, h2]⟩
  · intro hmem
    rw [reconnect_trace] at hmem
    cases h1 : env.transportClose s.transport with
    | error e =>
      exfalso
      rcases List.mem_append.1 hmem with hcl | hau
      · rw [cleanup_of_transportClose_error env s e h1] at hcl
        simp at hcl
      · exact authRun_no_clientClose env s.configuration s.sftp_client hau
    | ok u => cases u; rfl
  · intro e h1
    refine ⟨?_, ?_, reconnect_fst env s⟩
    · intro hmem
      rcases List.mem_append.1 (reconnect_trace env s ▸ hmem) with hcl | hau
      · rw [cleanup_of_transportClose_error env s e h1] at hcl
        simp at hcl
      · exact authRun_no_clientClose env s.configuration s.sftp_client hau
    · rw [reconnect_trace, cleanup_of_transportClose_error env s e h1]
      simp

theorem reconnect_transport_closed_first_witness :
    Event.clientClose s0.sftp_client ∉ (SFTP.reconnect envCloseFail s0).2.2 ∧
    Event.log Level.warning ("Error closing existing connection: " ++ "closefail")
      ∈ (SFTP.reconnect envCloseFail s0).2.2 ∧
    (SFTP.reconnect envCloseFail s0).1 = Except.ok () :=
  ⟨((reconnect_transport_closed_first envCloseFail s0).2.2 "closefail" rfl).1,
   ((reconnect_transport_closed_first envCloseFail s0).2.2 "closefail" rfl).2.1,
   (((reconnect_transport_closed_first envCloseFail s0).2.2 "closefail" rfl).2.2).trans
     rfl⟩

end Fileshift
